import Mathlib

/-!
# The Lua binding of the asynchronous client-streaming writer

Embedding of `src/cpp/client/BindClientAsyncWriter.cpp`: the factory
`GetClientAsyncWriter`, the free function `Close` with the native close
callback it builds around a Lua handler, and the class registration
`BindClientAsyncWriter`.

Calls that leave the file (the timeout resolver, the constructor and the member
functions of the wrapped writer, the Lua handler) are recorded as a trace of
`Effect`s in program order, so that "how often" and "in which order" can be
stated.
-/

namespace GrpcLua

/-! ## Values crossing the Lua boundary -/

/-- Values the binding pushes to Lua when it calls a handler: `nullptr` is pushed
as nil, a `std::string` as a Lua string, a status code as an integer. -/
inductive LuaValue
  | nil
  | string (s : String)
  | integer (n : Int)
  deriving DecidableEq, Repr

/-- A `LuaIntf::LuaRef`. The binding observes a reference in two ways only: it
tests it (`explicit operator bool`, the field `asBool`) and it calls it; `ref`
identifies the referenced Lua value. -/
structure LuaRef where
  ref : Nat
  asBool : Bool
  deriving DecidableEq, Repr

/-- One invocation of a Lua function with its argument list. -/
structure LuaCall where
  callee : LuaRef
  args : List LuaValue
  deriving DecidableEq, Repr

/-- A `grpc_cb_core::Status` as seen through the three accessors the binding
uses: `ok()`, `GetCode()` and `GetDetails()`. -/
structure Status where
  ok : Bool
  GetCode : Int
  GetDetails : String
  deriving DecidableEq, Repr

/-- A `grpc_cb_core::CloseCb`: a `std::function` taking the final status and the
response; `none` is the default-constructed empty function. A non-empty callback
is given by the Lua invocations it performs, in order. -/
abbrev CloseCb := Option (Status → String → List LuaCall)

/-- A `ChannelSptr`: a shared pointer, `none` when null. -/
abbrev ChannelSptr := Option Nat

/-- A `CompletionQueueSptr`: a shared pointer, `none` when null. -/
abbrev CompletionQueueSptr := Option Nat

/-! ## Effects and failures -/

/-- Calls the binding makes to its collaborators:
* `GetTimeoutMs timeoutSec` is `util::GetTimeoutMs(timeoutSec)`;
* `construct pChannel sMethod pCq nTimeoutMs` is the constructor call
  `ClientAsyncWriter(pChannel, sMethod, pCq, nTimeoutMs)`;
* `Write self request` is `ClientAsyncWriter::Write(request)` on the writer at
  address `self`;
* `Close self cb` is `ClientAsyncWriter::Close(cb)` on the writer at address `self`;
* `luaCall c` is a Lua function called directly. -/
inductive Effect
  | GetTimeoutMs (timeoutSec : LuaRef)
  | construct (pChannel : ChannelSptr) (sMethod : String) (pCq : CompletionQueueSptr)
      (nTimeoutMs : Int)
  | Write (self : Nat) (request : String)
  | Close (self : Nat) (cb : CloseCb)
  | luaCall (c : LuaCall)

/-- Ways a call into the binding ends without returning normally: a failed
`assert` (the process is aborted), a member call through a null pointer, or an
error raised on the Lua side of the call (no method registered under the name,
or an argument of the wrong kind). -/
inductive Failure
  | assertion
  | nullDereference
  | luaError
  deriving DecidableEq, Repr

/-- What a call did (its trace of effects, in order) and how it ended. -/
structure Outcome (α : Type) where
  trace : List Effect
  result : Except Failure α

/-- The C `assert(cond)`. With `NDEBUG` defined (`ndebug = true`) it expands to
nothing; otherwise a false condition aborts. -/
def assert (ndebug : Bool) (cond : Bool) : Except Failure Unit :=
  if ndebug then .ok ()
  else if cond then .ok ()
  else .error .assertion

/-! ## The functions of the file -/

/-- The factory `GetClientAsyncWriter`. The resolver `util::GetTimeoutMs` and the
constructor of the wrapped writer are declared outside this file and are taken
as parameters (`GetTimeoutMs` yields the `int64_t` value as an integer). -/
def GetClientAsyncWriter {W : Type} (ndebug : Bool) (GetTimeoutMs : LuaRef → Int)
    (ctor : ChannelSptr → String → CompletionQueueSptr → Int → W)
    (pChannel : ChannelSptr) (sMethod : String) (pCq : CompletionQueueSptr)
    (timeoutSec : LuaRef) : Outcome W :=
  match assert ndebug pCq.isSome with
  | .error e => ⟨[], .error e⟩
  | .ok () =>
    let nTimeoutMs := GetTimeoutMs timeoutSec
    ⟨[.GetTimeoutMs timeoutSec, .construct pChannel sMethod pCq nTimeoutMs],
      .ok (ctor pChannel sMethod pCq nTimeoutMs)⟩

/-- The lambda `[luaCloseCb](const Status& status, const std::string& sResponse)`
that `Close` stores in `cbClose` when the handler is set. -/
def closeLambda (luaCloseCb : LuaRef) (status : Status) (sResponse : String) : List LuaCall :=
  if status.ok then
    [⟨luaCloseCb, [.string sResponse, .nil, .integer status.GetCode]⟩]
  else
    [⟨luaCloseCb, [.nil, .string status.GetDetails, .integer status.GetCode]⟩]

/-- The free function `Close(ClientAsyncWriter* pWriter, LuaRef& luaCloseCb)`;
`pWriter` is `none` when null. When the assertion is compiled out, the member
call through a null `pWriter` has no defined behaviour; it is recorded as the
failure `nullDereference`, with no effect. -/
def Close (ndebug : Bool) (pWriter : Option Nat) (luaCloseCb : LuaRef) : Outcome Unit :=
  match assert ndebug pWriter.isSome with
  | .error e => ⟨[], .error e⟩
  | .ok () =>
    -- default empty callback
    let cbClose : CloseCb := if luaCloseCb.asBool then some (closeLambda luaCloseCb) else none
    match pWriter with
    | some self => ⟨[.Close self cbClose], .ok ()⟩
    | none => ⟨[], .error .nullDereference⟩

/-- What a method name of the registered class is bound to: `memberWrite` is
`&ClientAsyncWriter::Write`, `freeClose` is `&Close`, the free function of this
file. -/
inductive BoundFunction
  | memberWrite
  | freeClose
  deriving DecidableEq, Repr

/-- A class registration: `beginClass<ClientAsyncWriter>(className)`, whether a
factory was added, and the functions added under their Lua names. -/
structure ClassBinding where
  className : String
  factory : Bool
  functions : List (String × BoundFunction)
  deriving DecidableEq, Repr

/-- The registration `bind::BindClientAsyncWriter(mod)`; `L` is `mod.state()`,
`none` when null. -/
def BindClientAsyncWriter (ndebug : Bool) (L : Option Nat) : Except Failure ClassBinding :=
  match assert ndebug L.isSome with
  | .error e => .error e
  | .ok () =>
    .ok { className := "ClientAsyncWriter"
          factory := true
          functions := [("write", .memberWrite), ("close", .freeClose)] }

/-- The argument of a method call coming from Lua, after conversion to the
parameter type of the bound function. -/
inductive LuaArg
  | str (s : String)
  | ref (r : LuaRef)
  deriving DecidableEq, Repr

/-- A method call `writer:name(arg)` from Lua on the writer object at address
`self`, dispatched through a class registration. -/
def callMethod (ndebug : Bool) (cls : ClassBinding) (self : Nat) (name : String)
    (arg : LuaArg) : Outcome Unit :=
  match cls.functions.lookup name, arg with
  | some .memberWrite, .str request => ⟨[.Write self request], .ok ()⟩
  | some .freeClose, .ref luaCloseCb => Close ndebug (some self) luaCloseCb
  | _, _ => ⟨[], .error .luaError⟩

/-- A sequence of method calls from Lua on one writer, run in order; the traces
are concatenated and the run stops at the first call that fails. -/
def callMethods (ndebug : Bool) (cls : ClassBinding) (self : Nat) :
    List (String × LuaArg) → Outcome Unit
  | [] => ⟨[], .ok ()⟩
  | (name, arg) :: rest =>
    match callMethod ndebug cls self name arg with
    | ⟨t, .ok ()⟩ =>
      let r := callMethods ndebug cls self rest
      ⟨t ++ r.trace, r.result⟩
    | ⟨t, .error e⟩ => ⟨t, .error e⟩

/-! ## The wrapped writer

The implementation of `ClientAsyncWriter` is not part of the sources; only the
calls made to it are. Its behaviour is taken from the specification. -/

/-- Modelled from the spec: the lifecycle of the wrapped `ClientAsyncWriter`,
whose implementation is missing from the sources. The state machine is
`Created → (Writing)* → Closing → Closed`. -/
inductive WriterState
  | Created
  | Writing
  | Closing
  | Closed
  deriving DecidableEq, Repr

/-- Modelled from the spec: the error a caller-contract violation of the missing
`ClientAsyncWriter` raises (Write after Close, Close called twice). -/
inductive WriterError
  | ProtocolViolation
  deriving DecidableEq, Repr

/-- Modelled from the spec: the missing `ClientAsyncWriter`. It is bound to a
channel, a method name, a completion queue and a timeout, and owns the sequence
of pending write operations (oldest first) and the registered close handler. -/
structure ClientAsyncWriter where
  channel : ChannelSptr
  method : String
  cq : CompletionQueueSptr
  timeout_ms : Int
  state : WriterState
  pending : List String
  onClose : CloseCb

/-- Modelled from the spec: the missing `ClientAsyncWriter::Write`. It enqueues
the payload as the next message to send; its precondition is that Close has not
yet been called, and violating it raises a ProtocolViolation. -/
def ClientAsyncWriter.Write (w : ClientAsyncWriter) (payload : String) :
    Except WriterError ClientAsyncWriter :=
  match w.state with
  | .Created => .ok { w with state := .Writing, pending := w.pending ++ [payload] }
  | .Writing => .ok { w with state := .Writing, pending := w.pending ++ [payload] }
  | .Closing => .error .ProtocolViolation
  | .Closed => .error .ProtocolViolation

/-- Modelled from the spec: the missing `ClientAsyncWriter::Close`. It signals
that no more writes will occur and registers the handler; `Closing` is entered
once, and a second Close is a ProtocolViolation. -/
def ClientAsyncWriter.Close (w : ClientAsyncWriter) (onClose : CloseCb) :
    Except WriterError ClientAsyncWriter :=
  match w.state with
  | .Created => .ok { w with state := .Closing, onClose := onClose }
  | .Writing => .ok { w with state := .Closing, onClose := onClose }
  | .Closing => .error .ProtocolViolation
  | .Closed => .error .ProtocolViolation

/-- Modelled from the spec: delivery of the close completion event to the missing
`ClientAsyncWriter`. In `Closing` the registered handler, if any, is invoked with
the final status and response and the writer becomes `Closed`; in any other state
no close is outstanding and nothing happens. -/
def ClientAsyncWriter.complete (w : ClientAsyncWriter) (status : Status) (response : String) :
    ClientAsyncWriter × List LuaCall :=
  match w.state with
  | .Closing =>
    ({ w with state := .Closed },
      match w.onClose with
      | some cb => cb status response
      | none => [])
  | _ => (w, [])

/-- The effect of one call of the binding on the wrapped writer. -/
def applyEffect (w : ClientAsyncWriter) : Effect → Except WriterError ClientAsyncWriter
  | .Write _ request => w.Write request
  | .Close _ cb => w.Close cb
  | _ => .ok w

/-- The effects of a trace on the wrapped writer, in order; an error is reported
at once and leaves the writer as it was before the failing call. -/
def applyTrace (w : ClientAsyncWriter) : List Effect → ClientAsyncWriter × Option WriterError
  | [] => (w, none)
  | e :: es =>
    match applyEffect w e with
    | .ok w1 => applyTrace w1 es
    | .error err => (w, some err)

/-- What a method call from Lua reports back: an error of the wrapped writer or
a failure of the binding itself. -/
inductive CallError
  | writer (e : WriterError)
  | binding (f : Failure)
  deriving DecidableEq, Repr

/-- A method call `writer:name(arg)` from Lua, run against the wrapped writer:
the writer afterwards and the error reported to the caller, if any. -/
def invoke (ndebug : Bool) (cls : ClassBinding) (self : Nat) (w : ClientAsyncWriter)
    (name : String) (arg : LuaArg) : ClientAsyncWriter × Option CallError :=
  let o := callMethod ndebug cls self name arg
  match applyTrace w o.trace with
  | (w1, some e) => (w1, some (.writer e))
  | (w1, none) =>
    match o.result with
    | .ok () => (w1, none)
    | .error f => (w1, some (.binding f))

/-- What can happen to a writer after a call: a further method call from Lua, or
the delivery of the close completion. -/
inductive SessionStep
  | call (name : String) (arg : LuaArg)
  | completion (status : Status) (response : String)

/-- One step of a session on the wrapped writer. -/
def sessionStep (ndebug : Bool) (cls : ClassBinding) (self : Nat) (w : ClientAsyncWriter) :
    SessionStep → ClientAsyncWriter
  | .call name arg => (invoke ndebug cls self w name arg).1
  | .completion status response => (w.complete status response).1

/-- A session: steps run in order. -/
def session (ndebug : Bool) (cls : ClassBinding) (self : Nat) (w : ClientAsyncWriter)
    (steps : List SessionStep) : ClientAsyncWriter :=
  steps.foldl (sessionStep ndebug cls self) w

/-! ## Helper lemmas -/

theorem assert_of_true (ndebug : Bool) : assert ndebug true = .ok () := by
  cases ndebug <;> rfl

theorem Close_some (ndebug : Bool) (self : Nat) (luaCloseCb : LuaRef) :
    Close ndebug (some self) luaCloseCb =
      ⟨[.Close self (if luaCloseCb.asBool then some (closeLambda luaCloseCb) else none)],
        .ok ()⟩ := by
  simp [Close, assert_of_true]

theorem BindClientAsyncWriter_ok (ndebug : Bool) (L : Option Nat) (cls : ClassBinding)
    (h : BindClientAsyncWriter ndebug L = .ok cls) :
    cls.functions = [("write", .memberWrite), ("close", .freeClose)] := by
  unfold BindClientAsyncWriter at h
  split at h
  · cases h
  · cases h
    rfl

theorem callMethod_write (ndebug : Bool) (cls : ClassBinding) (self : Nat) (request : String)
    (h : cls.functions = [("write", .memberWrite), ("close", .freeClose)]) :
    callMethod ndebug cls self "write" (.str request) = ⟨[.Write self request], .ok ()⟩ := by
  simp [callMethod, h, List.lookup]

theorem callMethod_close (ndebug : Bool) (cls : ClassBinding) (self : Nat) (luaCloseCb : LuaRef)
    (h : cls.functions = [("write", .memberWrite), ("close", .freeClose)]) :
    callMethod ndebug cls self "close" (.ref luaCloseCb) =
      Close ndebug (some self) luaCloseCb := by
  simp [callMethod, h, List.lookup]

/-! ## The close callback -/

/-- C1: when the handler is set and the completion has `status.ok()` true, the
callback that `Close` hands to the writer calls the handler with exactly the
three arguments (response, nil, status code). -/
theorem Close_callback_on_success (ndebug : Bool) (self : Nat) (luaCloseCb : LuaRef)
    (status : Status) (sResponse : String)
    (hcb : luaCloseCb.asBool = true) (hok : status.ok = true) :
    ∃ cb, (Close ndebug (some self) luaCloseCb).trace = [.Close self (some cb)] ∧
      cb status sResponse =
        [⟨luaCloseCb, [.string sResponse, .nil, .integer status.GetCode]⟩] := by
  refine ⟨closeLambda luaCloseCb, ?_, ?_⟩
  · simp [Close_some, hcb]
  · simp [closeLambda, hok]

theorem Close_callback_on_success_witness :
    ∃ cb, (Close false (some 1) ⟨7, true⟩).trace = [.Close 1 (some cb)] ∧
      cb ⟨true, 0, "unused"⟩ "" = [⟨⟨7, true⟩, [.string "", .nil, .integer 0]⟩] :=
  Close_callback_on_success false 1 ⟨7, true⟩ ⟨true, 0, "unused"⟩ "" rfl rfl

/-- C2: when the handler is set and the completion has `status.ok()` false, the
callback that `Close` hands to the writer calls the handler with exactly the
three arguments (nil, status details, status code); the response is not passed. -/
theorem Close_callback_on_failure (ndebug : Bool) (self : Nat) (luaCloseCb : LuaRef)
    (status : Status) (sResponse : String)
    (hcb : luaCloseCb.asBool = true) (hok : status.ok = false) :
    ∃ cb, (Close ndebug (some self) luaCloseCb).trace = [.Close self (some cb)] ∧
      cb status sResponse =
        [⟨luaCloseCb, [.nil, .string status.GetDetails, .integer status.GetCode]⟩] := by
  refine ⟨closeLambda luaCloseCb, ?_, ?_⟩
  · simp [Close_some, hcb]
  · simp [closeLambda, hok]

theorem Close_callback_on_failure_witness :
    ∃ cb, (Close true (some 2) ⟨9, true⟩).trace = [.Close 2 (some cb)] ∧
      cb ⟨false, 4, "deadline exceeded"⟩ "partial response" =
        [⟨⟨9, true⟩, [.nil, .string "deadline exceeded", .integer 4]⟩] :=
  Close_callback_on_failure true 2 ⟨9, true⟩ ⟨false, 4, "deadline exceeded"⟩
    "partial response" rfl rfl

/-- C3: when the handler is set, for every completion the callback that `Close`
hands to the writer calls the handler with three arguments of which the first is
non-nil exactly when `status.ok()` holds and the second is non-nil exactly when
it does not, empty strings included. -/
theorem Close_callback_discriminates (ndebug : Bool) (self : Nat) (luaCloseCb : LuaRef)
    (status : Status) (sResponse : String) (hcb : luaCloseCb.asBool = true) :
    ∃ cb, (Close ndebug (some self) luaCloseCb).trace = [.Close self (some cb)] ∧
      ∃ a b c, cb status sResponse = [⟨luaCloseCb, [a, b, c]⟩] ∧
        (a ≠ .nil ↔ status.ok = true) ∧ (b ≠ .nil ↔ status.ok = false) := by
  refine ⟨closeLambda luaCloseCb, ?_, ?_⟩
  · simp [Close_some, hcb]
  · cases hok : status.ok
    · exact ⟨.nil, .string status.GetDetails, .integer status.GetCode,
        by simp [closeLambda, hok], by simp, by simp⟩
    · exact ⟨.string sResponse, .nil, .integer status.GetCode,
        by simp [closeLambda, hok], by simp, by simp⟩

theorem Close_callback_discriminates_witness :
    ∃ cb, (Close false (some 1) ⟨7, true⟩).trace = [.Close 1 (some cb)] ∧
      ∃ a b c, cb ⟨false, 2, ""⟩ "" = [⟨⟨7, true⟩, [a, b, c]⟩] ∧
        (a ≠ .nil ↔ (⟨false, 2, ""⟩ : Status).ok = true) ∧
        (b ≠ .nil ↔ (⟨false, 2, ""⟩ : Status).ok = false) :=
  Close_callback_discriminates false 1 ⟨7, true⟩ ⟨false, 2, ""⟩ "" rfl

/-- C4: when the handler is absent, `Close` still calls the writer's Close,
exactly once and with the empty callback, and calls no Lua function. -/
theorem Close_without_handler (ndebug : Bool) (self : Nat) (luaCloseCb : LuaRef)
    (hcb : luaCloseCb.asBool = false) :
    (Close ndebug (some self) luaCloseCb).trace = [.Close self none] ∧
      (Close ndebug (some self) luaCloseCb).result = .ok () ∧
      ∀ c, Effect.luaCall c ∉ (Close ndebug (some self) luaCloseCb).trace := by
  simp [Close_some, hcb]

theorem Close_without_handler_witness :
    (Close false (some 3) ⟨0, false⟩).trace = [.Close 3 none] ∧
      (Close false (some 3) ⟨0, false⟩).result = .ok () ∧
      ∀ c, Effect.luaCall c ∉ (Close false (some 3) ⟨0, false⟩).trace :=
  Close_without_handler false 3 ⟨0, false⟩ rfl

/-- C5: with a handler, `Close` calls the writer's Close exactly once, and every
invocation of the callback it passes, whatever the status and the response, calls
the handler exactly once. -/
theorem Close_calls_handler_once (ndebug : Bool) (self : Nat) (luaCloseCb : LuaRef)
    (hcb : luaCloseCb.asBool = true) :
    ∃ cb, (Close ndebug (some self) luaCloseCb).trace = [.Close self (some cb)] ∧
      (Close ndebug (some self) luaCloseCb).result = .ok () ∧
      ∀ (status : Status) (sResponse : String),
        ∃ args, cb status sResponse = [⟨luaCloseCb, args⟩] := by
  refine ⟨closeLambda luaCloseCb, ?_, ?_, ?_⟩
  · simp [Close_some, hcb]
  · simp [Close_some]
  · intro status sResponse
    cases hok : status.ok
    · exact ⟨[.nil, .string status.GetDetails, .integer status.GetCode],
        by simp [closeLambda, hok]⟩
    · exact ⟨[.string sResponse, .nil, .integer status.GetCode],
        by simp [closeLambda, hok]⟩

theorem Close_calls_handler_once_witness :
    ∃ cb, (Close true (some 5) ⟨11, true⟩).trace = [.Close 5 (some cb)] ∧
      (Close true (some 5) ⟨11, true⟩).result = .ok () ∧
      ∀ (status : Status) (sResponse : String),
        ∃ args, cb status sResponse = [⟨⟨11, true⟩, args⟩] :=
  Close_calls_handler_once true 5 ⟨11, true⟩ rfl

/-- C10: the callback `Close` passes to the writer is empty exactly when the
handler is absent; a non-empty callback hands every completion on to the
supplied handler, in one call carrying the response (on success) or the details
(on failure) together with the status code, so no result is discarded; and
`Close` itself calls no Lua function. -/
theorem Close_callback_empty_iff (ndebug : Bool) (self : Nat) (luaCloseCb : LuaRef) :
    ∃ cb, (Close ndebug (some self) luaCloseCb).trace = [.Close self cb] ∧
      (cb = none ↔ luaCloseCb.asBool = false) ∧
      (∀ f, cb = some f → ∀ (status : Status) (sResponse : String),
        f status sResponse =
          [⟨luaCloseCb,
            if status.ok then [.string sResponse, .nil, .integer status.GetCode]
            else [.nil, .string status.GetDetails, .integer status.GetCode]⟩]) ∧
      ∀ c, Effect.luaCall c ∉ (Close ndebug (some self) luaCloseCb).trace := by
  refine ⟨if luaCloseCb.asBool then some (closeLambda luaCloseCb) else none, ?_, ?_, ?_, ?_⟩
  · simp [Close_some]
  · cases luaCloseCb.asBool <;> simp
  · intro f hf status sResponse
    cases hb : luaCloseCb.asBool
    · simp [hb] at hf
    · simp only [hb, if_true, Option.some.injEq] at hf
      subst hf
      cases hok : status.ok <;> simp [closeLambda, hok]
  · simp [Close_some]

/-! ## The factory -/

/-- C6: with a non-null completion queue the factory resolves the timeout once
and constructs the writer once, from the given channel, method name and
completion queue and the resolved milliseconds. -/
theorem GetClientAsyncWriter_constructs {W : Type} (ndebug : Bool) (GetTimeoutMs : LuaRef → Int)
    (ctor : ChannelSptr → String → CompletionQueueSptr → Int → W)
    (pChannel : ChannelSptr) (sMethod : String) (cq : Nat) (timeoutSec : LuaRef) :
    (GetClientAsyncWriter ndebug GetTimeoutMs ctor pChannel sMethod (some cq) timeoutSec).trace =
        [.GetTimeoutMs timeoutSec,
          .construct pChannel sMethod (some cq) (GetTimeoutMs timeoutSec)] ∧
      (GetClientAsyncWriter ndebug GetTimeoutMs ctor pChannel sMethod (some cq) timeoutSec).result =
        .ok (ctor pChannel sMethod (some cq) (GetTimeoutMs timeoutSec)) := by
  simp [GetClientAsyncWriter, assert_of_true]

/-- C7, as stated, fails: compiled with `NDEBUG` the factory does not reject a
null completion queue; it resolves the timeout and constructs the writer with
the null queue. -/
theorem GetClientAsyncWriter_null_cq_not_rejected :
    GetClientAsyncWriter true (fun _ => 5000) (fun ch m cq ms => (ch, m, cq, ms)) (some 1)
        "Upload" none ⟨0, false⟩ =
      ⟨[.GetTimeoutMs ⟨0, false⟩, .construct (some 1) "Upload" none 5000],
        .ok (some 1, "Upload", none, 5000)⟩ := by
  rfl

/-- C7, amended: compiled without `NDEBUG`, the factory given a null completion
queue fails its assertion before the timeout is resolved and before a writer is
constructed; with a non-null completion queue it never fails, in either build. -/
theorem GetClientAsyncWriter_checks_cq {W : Type} (GetTimeoutMs : LuaRef → Int)
    (ctor : ChannelSptr → String → CompletionQueueSptr → Int → W)
    (pChannel : ChannelSptr) (sMethod : String) (timeoutSec : LuaRef) :
    GetClientAsyncWriter false GetTimeoutMs ctor pChannel sMethod none timeoutSec =
        ⟨[], .error .assertion⟩ ∧
      ∀ (ndebug : Bool) (cq : Nat),
        (GetClientAsyncWriter ndebug GetTimeoutMs ctor pChannel sMethod (some cq) timeoutSec).result
          = .ok (ctor pChannel sMethod (some cq) (GetTimeoutMs timeoutSec)) := by
  constructor
  · rfl
  · intro ndebug cq
    simp [GetClientAsyncWriter, assert_of_true]

/-! ## Method calls through the registered class -/

theorem callMethods_writes (ndebug : Bool) (cls : ClassBinding) (self : Nat)
    (h : cls.functions = [("write", .memberWrite), ("close", .freeClose)])
    (payloads : List String) (rest : List (String × LuaArg)) :
    callMethods ndebug cls self (payloads.map (fun p => ("write", LuaArg.str p)) ++ rest) =
      ⟨payloads.map (Effect.Write self) ++ (callMethods ndebug cls self rest).trace,
        (callMethods ndebug cls self rest).result⟩ := by
  induction payloads with
  | nil => simp
  | cons p ps ih => simp [callMethods, callMethod_write ndebug cls self p h, ih]

/-- C9: N writes followed by one close, issued through the registered class on
one writer, reach the wrapped writer as exactly those N payloads, unchanged and
in issuance order, one `Write` per call, followed by exactly one `Close`. -/
theorem writes_then_close_forwarded (ndebug : Bool) (L : Option Nat) (cls : ClassBinding)
    (self : Nat) (payloads : List String) (luaCloseCb : LuaRef)
    (hcls : BindClientAsyncWriter ndebug L = .ok cls) :
    callMethods ndebug cls self
        (payloads.map (fun p => ("write", LuaArg.str p)) ++ [("close", .ref luaCloseCb)]) =
      ⟨payloads.map (Effect.Write self) ++
          [.Close self (if luaCloseCb.asBool then some (closeLambda luaCloseCb) else none)],
        .ok ()⟩ := by
  have h := BindClientAsyncWriter_ok ndebug L cls hcls
  rw [callMethods_writes ndebug cls self h]
  simp [callMethods, callMethod_close ndebug cls self luaCloseCb h, Close_some]

theorem writes_then_close_forwarded_witness :
    callMethods false
        { className := "ClientAsyncWriter", factory := true
          functions := [("write", .memberWrite), ("close", .freeClose)] } 1
        (["chunk1", "chunk2"].map (fun p => ("write", LuaArg.str p)) ++
          [("close", .ref ⟨7, true⟩)]) =
      ⟨["chunk1", "chunk2"].map (Effect.Write 1) ++
          [.Close 1 (if (⟨7, true⟩ : LuaRef).asBool then some (closeLambda ⟨7, true⟩) else none)],
        .ok ()⟩ :=
  writes_then_close_forwarded false (some 0) _ 1 ["chunk1", "chunk2"] ⟨7, true⟩ rfl

/-! ## Write after close, on the wrapped writer -/

theorem invoke_write (ndebug : Bool) (cls : ClassBinding) (self : Nat) (w : ClientAsyncWriter)
    (payload : String)
    (h : cls.functions = [("write", .memberWrite), ("close", .freeClose)]) :
    invoke ndebug cls self w "write" (.str payload) =
      match w.Write payload with
      | .ok w1 => (w1, none)
      | .error e => (w, some (.writer e)) := by
  simp only [invoke, callMethod_write ndebug cls self payload h, applyTrace, applyEffect]
  cases w.Write payload <;> rfl

theorem invoke_close (ndebug : Bool) (cls : ClassBinding) (self : Nat) (w : ClientAsyncWriter)
    (luaCloseCb : LuaRef)
    (h : cls.functions = [("write", .memberWrite), ("close", .freeClose)]) :
    invoke ndebug cls self w "close" (.ref luaCloseCb) =
      match w.Close (if luaCloseCb.asBool then some (closeLambda luaCloseCb) else none) with
      | .ok w1 => (w1, none)
      | .error e => (w, some (.writer e)) := by
  simp only [invoke, callMethod_close ndebug cls self luaCloseCb h, Close_some, applyTrace,
    applyEffect]
  cases w.Close (if luaCloseCb.asBool then some (closeLambda luaCloseCb) else none) <;> rfl

theorem Write_after_close (w : ClientAsyncWriter) (payload : String)
    (h : w.state = .Closing ∨ w.state = .Closed) :
    w.Write payload = .error .ProtocolViolation := by
  rcases h with h | h <;> simp [ClientAsyncWriter.Write, h]

theorem Close_after_close (w : ClientAsyncWriter) (cb : CloseCb)
    (h : w.state = .Closing ∨ w.state = .Closed) :
    w.Close cb = .error .ProtocolViolation := by
  rcases h with h | h <;> simp [ClientAsyncWriter.Close, h]

theorem invoke_close_state (ndebug : Bool) (cls : ClassBinding) (self : Nat)
    (w : ClientAsyncWriter) (luaCloseCb : LuaRef)
    (h : cls.functions = [("write", .memberWrite), ("close", .freeClose)]) :
    (invoke ndebug cls self w "close" (.ref luaCloseCb)).1.state = .Closing ∨
      (invoke ndebug cls self w "close" (.ref luaCloseCb)).1.state = .Closed := by
  rw [invoke_close ndebug cls self w luaCloseCb h]
  unfold ClientAsyncWriter.Close
  cases hs : w.state <;> simp [hs]

theorem applyTrace_after_close (w : ClientAsyncWriter)
    (h : w.state = .Closing ∨ w.state = .Closed) (t : List Effect) :
    (applyTrace w t).1 = w := by
  induction t with
  | nil => rfl
  | cons e es ih =>
    cases e with
    | Write self request => simp [applyTrace, applyEffect, Write_after_close w request h]
    | Close self cb => simp [applyTrace, applyEffect, Close_after_close w cb h]
    | GetTimeoutMs t => simpa [applyTrace, applyEffect] using ih
    | construct a b c d => simpa [applyTrace, applyEffect] using ih
    | luaCall c => simpa [applyTrace, applyEffect] using ih

theorem invoke_after_close (ndebug : Bool) (cls : ClassBinding) (self : Nat)
    (w : ClientAsyncWriter) (h : w.state = .Closing ∨ w.state = .Closed)
    (name : String) (arg : LuaArg) :
    (invoke ndebug cls self w name arg).1 = w := by
  have ht := applyTrace_after_close w h (callMethod ndebug cls self name arg).trace
  unfold invoke
  simp only []
  split
  · rename_i w1 e heq
    rw [heq] at ht
    exact ht
  · rename_i w1 heq
    rw [heq] at ht
    split <;> exact ht

theorem complete_after_close (w : ClientAsyncWriter)
    (h : w.state = .Closing ∨ w.state = .Closed) (status : Status) (response : String) :
    (w.complete status response).1.state = .Closing ∨
      (w.complete status response).1.state = .Closed := by
  rcases h with h | h <;> simp [ClientAsyncWriter.complete, h]

theorem session_after_close (ndebug : Bool) (cls : ClassBinding) (self : Nat)
    (steps : List SessionStep) (w : ClientAsyncWriter)
    (h : w.state = .Closing ∨ w.state = .Closed) :
    (session ndebug cls self w steps).state = .Closing ∨
      (session ndebug cls self w steps).state = .Closed := by
  induction steps generalizing w with
  | nil => simpa [session] using h
  | cons st rest ih =>
    have hstep : (sessionStep ndebug cls self w st).state = .Closing ∨
        (sessionStep ndebug cls self w st).state = .Closed := by
      cases st with
      | call name arg =>
        simp only [sessionStep, invoke_after_close ndebug cls self w h name arg]
        exact h
      | completion status response => exact complete_after_close w h status response
    simpa [session] using ih _ hstep

/-- C8: on the wrapped writer as the specification describes it, once close has
been called through the registered class, every later write issued through the
registered class, whatever happened in between, reports a ProtocolViolation to
the caller and leaves the writer, its pending payloads included, unchanged. -/
theorem write_after_close_rejected (ndebug : Bool) (L : Option Nat) (cls : ClassBinding)
    (self : Nat) (w : ClientAsyncWriter) (luaCloseCb : LuaRef) (steps : List SessionStep)
    (payload : String)
    (hcls : BindClientAsyncWriter ndebug L = .ok cls) :
    invoke ndebug cls self
        (session ndebug cls self (invoke ndebug cls self w "close" (.ref luaCloseCb)).1 steps)
        "write" (.str payload) =
      (session ndebug cls self (invoke ndebug cls self w "close" (.ref luaCloseCb)).1 steps,
        some (.writer .ProtocolViolation)) := by
  have h := BindClientAsyncWriter_ok ndebug L cls hcls
  have hs := session_after_close ndebug cls self steps _
    (invoke_close_state ndebug cls self w luaCloseCb h)
  rw [invoke_write ndebug cls self _ payload h, Write_after_close _ payload hs]

theorem write_after_close_rejected_witness :
    invoke false
        { className := "ClientAsyncWriter", factory := true
          functions := [("write", .memberWrite), ("close", .freeClose)] } 1
        (session false
          { className := "ClientAsyncWriter", factory := true
            functions := [("write", .memberWrite), ("close", .freeClose)] } 1
          { channel := some 1, method := "Upload", cq := some 2, timeout_ms := 5000
            state := .Closing, pending := ["chunk1"], onClose := some (closeLambda ⟨7, true⟩) }
          [.completion ⟨true, 0, ""⟩ "done", .call "write" (.str "chunk2")])
        "write" (.str "chunk3") =
      ({ channel := some 1, method := "Upload", cq := some 2, timeout_ms := 5000
         state := .Closed, pending := ["chunk1"], onClose := some (closeLambda ⟨7, true⟩) },
        some (.writer .ProtocolViolation)) :=
  write_after_close_rejected false (some 0) _ 1
    { channel := some 1, method := "Upload", cq := some 2, timeout_ms := 5000
      state := .Writing, pending := ["chunk1"], onClose := none }
    ⟨7, true⟩ [.completion ⟨true, 0, ""⟩ "done", .call "write" (.str "chunk2")] "chunk3" rfl

end GrpcLua
